import Mathlib

/-!
Shallow embedding of the deployment-config describer
(`pkg/cmd/cli/describe` in the source tree, file `src/unnamed/part_000`)
and of the user registry `REST.Get` (`src/pkg/user/registry/user/etcd/etcd.go`),
together with theorems settling the specification claims.

Machine integers of the source (`int`, `int64`, `int32`) are modelled as
`Int`/`Nat`; none of the embedded code paths can overflow them.  Collaborator
services (the object store, the Kubernetes client) are modelled as explicit
function-valued inputs returning `Except`, mirroring Go's `(value, error)`
returns.  Helper functions of the wider repository that are not part of the
two source files (metadata formatting, label formatting, relative-time
formatting, pod-template and event description, annotation readers) are opaque
to every claim and are therefore passed in as an explicit `Externals` record
of oracle functions; the theorems hold for every choice of them.
-/

namespace Origin

/-- Go `error` values as the describer distinguishes them: the only predicate
the code applies is `kerrors.IsNotFound`, and the only other observation is
the error's message (printed via `%v`). -/
inductive GoError where
  | notFound (msg : String)
  | other (msg : String)
deriving DecidableEq

/-- Message observation of a Go error (what `%v` prints). -/
def GoError.message : GoError → String
  | .notFound m => m
  | .other m => m

/-- Embedding of `kerrors.IsNotFound`. -/
def GoError.isNotFound : GoError → Bool
  | .notFound _ => true
  | .other _ => false

/-- Object metadata of a deployment config, as far as the describer reads it
directly (the rest is consumed only by the opaque `formatMeta` helper). -/
structure ObjectMeta where
  name : String
  nspace : String
deriving DecidableEq

/-- Embedding of `kapi.ObjectReference` restricted to the fields the
describer prints. -/
structure ObjectReference where
  kind : String
  name : String
  nspace : String
deriving DecidableEq

/-- Embedding of `deployapi.DeploymentTriggerImageChangeParams` restricted to
the fields read by `printTriggers`.  The source dereferences the
`ImageChangeParams` pointer unconditionally in the image-change branch, so the
field is modelled as always present. -/
structure DeploymentTriggerImageChangeParams where
  automatic : Bool
  fromRef : ObjectReference
deriving DecidableEq

/-- Trigger type constant `deployapi.DeploymentTriggerOnConfigChange`. -/
def DeploymentTriggerOnConfigChange : String := "ConfigChange"

/-- Trigger type constant `deployapi.DeploymentTriggerOnImageChange`. -/
def DeploymentTriggerOnImageChange : String := "ImageChange"

/-- Embedding of `deployapi.DeploymentTriggerPolicy`. -/
structure DeploymentTriggerPolicy where
  type : String
  imageChangeParams : DeploymentTriggerImageChangeParams
deriving DecidableEq

/-- Environment variable (`kapi.EnvVar`), name/value only. -/
structure EnvVar where
  name : String
  value : String
deriving DecidableEq

/-- Embedding of `convertEnv`: turns env vars into the label-map shape handed
to `formatLabels` (the map is modelled as an association list). -/
def convertEnv (env : List EnvVar) : List (String × String) :=
  env.map (fun e => (e.name, e.value))

/-- Embedding of `deployapi.CustomDeploymentStrategyParams`. -/
structure CustomParams where
  image : String
  environment : List EnvVar
  command : List String
deriving DecidableEq

/-- Embedding of `deployapi.ExecNewPodHook`. -/
structure ExecNewPodHook where
  containerName : String
  command : List String
  env : List EnvVar
deriving DecidableEq

/-- Embedding of `deployapi.TagImageHook`. -/
structure TagImageHook where
  containerName : String
  toRef : ObjectReference
deriving DecidableEq

/-- Embedding of `deployapi.LifecycleHook`.  `failurePolicy` is the string the
source prints with `%s`. -/
structure LifecycleHook where
  failurePolicy : String
  execNewPod : Option ExecNewPodHook
  tagImages : List TagImageHook
deriving DecidableEq

/-- Embedding of `deployapi.RecreateDeploymentStrategyParams` (hooks only;
the describer reads nothing else). -/
structure RecreateParams where
  pre : Option LifecycleHook
  mid : Option LifecycleHook
  post : Option LifecycleHook
deriving DecidableEq

/-- Embedding of `deployapi.RollingDeploymentStrategyParams` (hooks only). -/
structure RollingParams where
  pre : Option LifecycleHook
  post : Option LifecycleHook
deriving DecidableEq

/-- Embedding of `deployapi.DeploymentStrategy`. -/
structure DeploymentStrategy where
  type : String
  customParams : Option CustomParams
  recreateParams : Option RecreateParams
  rollingParams : Option RollingParams
deriving DecidableEq

/-- Pod template: consumed only by the opaque `kctl.DescribePodTemplate`
collaborator, so its contents are irrelevant; a tag string stands for it. -/
structure PodTemplate where
  tag : String
deriving DecidableEq

/-- Embedding of `deployapi.DeploymentConfigSpec` restricted to the fields
`printDeploymentConfigSpec` reads. -/
structure DeploymentConfigSpec where
  selector : List (String × String)
  replicas : Int
  test : Bool
  triggers : List DeploymentTriggerPolicy
  strategy : DeploymentStrategy
  template : PodTemplate
deriving DecidableEq

/-- Embedding of `deployapi.DeploymentDetails` (message only). -/
structure DeploymentDetails where
  message : String
deriving DecidableEq

/-- Embedding of `deployapi.DeploymentConfigStatus` as read by the
describer. -/
structure DeploymentConfigStatus where
  latestVersion : Int
  details : Option DeploymentDetails
deriving DecidableEq

/-- Embedding of `deployapi.DeploymentConfig`. -/
structure DeploymentConfig where
  meta : ObjectMeta
  spec : DeploymentConfigSpec
  status : DeploymentConfigStatus
deriving DecidableEq

/-- Embedding of `kapi.ReplicationController` (a deployment instance) with
its embedded `ObjectMeta` flattened, restricted to the fields the describer
reads; the creation timestamp is modelled as an integer instant. -/
structure ReplicationController where
  name : String
  nspace : String
  creationTimestamp : Int
  labels : List (String × String)
  specReplicas : Int
  specSelector : List (String × String)
  statusReplicas : Int
deriving DecidableEq

/-- Pod phases distinguished by `getPodStatusForDeployment`. -/
inductive PodPhase where
  | running
  | pending
  | succeeded
  | failed
  | unknown
deriving DecidableEq

/-- Embedding of `kapi.Pod` restricted to its status phase. -/
structure Pod where
  phase : PodPhase
deriving DecidableEq

/-- Event object; the describer only reorders and truncates events before
handing them to the opaque `kctl.DescribeEvents` collaborator, so the payload
is opaque. -/
structure Event where
  payload : String
deriving DecidableEq

/-- Embedding of `extensions.CPUTargetUtilization`. -/
structure CPUTargetUtilization where
  targetPercentage : Int
deriving DecidableEq

/-- Embedding of `extensions.SubresourceReference` (kind and name only). -/
structure SubresourceReference where
  kind : String
  name : String
deriving DecidableEq

/-- Embedding of `extensions.HorizontalPodAutoscalerSpec` restricted to the
fields `printAutoscalingInfo` reads.  The source dereferences the
`MinReplicas` pointer unconditionally, so the field is modelled as plain. -/
structure HPASpec where
  scaleRef : SubresourceReference
  minReplicas : Int
  maxReplicas : Int
  cpuUtilization : Option CPUTargetUtilization
deriving DecidableEq

/-- Embedding of `extensions.HorizontalPodAutoscaler`. -/
structure HorizontalPodAutoscaler where
  spec : HPASpec
deriving DecidableEq

/-- Embedding of `kctl.DescriberSettings` (the describer reads only
`ShowEvents`). -/
structure DescriberSettings where
  showEvents : Bool
deriving DecidableEq

/-- Kubernetes client collaborator, as the interface the describer needs:
each method returns Go's `(value, error)` pair modelled as `Except`. -/
structure KubeClient where
  getRC : String → String → Except GoError ReplicationController
  listRC : String → Except GoError (List ReplicationController)
  searchEvents : String → DeploymentConfig → Except GoError (Option (List Event))
  listHPA : String → Except GoError (List HorizontalPodAutoscaler)
  listPods : String → List (String × String) → Except GoError (List Pod)

/-- OpenShift client collaborator (deployment-config get only). -/
structure OsClient where
  getDeploymentConfig : String → String → Except GoError DeploymentConfig

/-- Oracle record for repository helpers outside the two source files.
Every claim theorem quantifies over it, so nothing proved depends on any
particular behaviour of these helpers. -/
structure Externals where
  formatMeta : ObjectMeta → String
  formatLabels : List (String × String) → String
  formatRelativeTime : Int → String
  describePodTemplate : PodTemplate → String
  describeEvents : List Event → String
  latestDeploymentNameForConfig : DeploymentConfig → String
  deploymentVersionFor : ReplicationController → Int
  deploymentConfigNameFor : ReplicationController → String
  deploymentStatusFor : ReplicationController → String

/-- Display-cap constant `maxDisplayDeployments` of the source. -/
def maxDisplayDeployments : Nat := 3

/-- Display-cap constant `maxDisplayDeploymentsEvents` of the source. -/
def maxDisplayDeploymentsEvents : Nat := 8

/-- Modelled from the spec: tab-delimited label/value line emitted by the
`formatString` helper, which lives outside the provided source files
("ordered sequence of (label, value) lines", "single consistent column
delimiter", spec section 4.3). -/
def formatString (label value : String) : String :=
  label ++ ":\t" ++ value ++ "\n"

/-- Go's `fmt.Sprintf("%v", b)` on a `bool`. -/
def goBool (b : Bool) : String :=
  if b then "true" else "false"

/-- Go `strings.HasSuffix(s, "\n")`, computed on the character list. -/
def endsWithNewline (s : String) : Bool :=
  s.data.getLast? == some '\n'

/-- Go `strings.TrimSuffix(s, "\n")`: removes one trailing newline if
present. -/
def trimSuffixNewline (s : String) : String :=
  if endsWithNewline s then String.mk s.data.dropLast else s

/-- Go `strings.Contains(s, "\n")`, computed on the character list. -/
def containsNewline (s : String) : Bool :=
  s.data.contains '\n'

/-- Splitting helper over character lists for `splitChar`. -/
def splitCharList (c : Char) : List Char → List String
  | [] => [""]
  | x :: xs =>
    if x == c then "" :: splitCharList c xs
    else
      match splitCharList c xs with
      | [] => [String.mk [x]]
      | h :: t => String.mk (x :: h.data) :: t

/-- Go `strings.Split(s, sep)` for a one-character separator: the fragments
between separator occurrences, never empty as a list. -/
def splitChar (c : Char) (s : String) : List String :=
  splitCharList c s.data

/-- Go `strings.ToLower`, computed characterwise. -/
def goToLower (s : String) : String :=
  String.mk (s.data.map Char.toLower)

/-- Modelled from the spec: `imageapi.SplitImageStreamTag` (outside the
provided source files) splits an image-stream reference `stream:tag` into its
stream and tag parts (spec section 4.3 renders image-change triggers from the
reference as stream and tag); a missing or empty tag defaults to the
conventional tag `latest`, and only the first colon separates. -/
def SplitImageStreamTag (nameAndTag : String) : String × String :=
  match splitChar ':' nameAndTag with
  | [] => ("", "latest")
  | [n] => (n, "latest")
  | n :: rest =>
    let tag := String.intercalate ":" rest
    (n, if tag == "" then "latest" else tag)

/-- Label printed by `printTriggers` for one image-change trigger whose
image-stream reference name is non-empty. -/
def imageTriggerLabel (t : DeploymentTriggerPolicy) : String :=
  let st := SplitImageStreamTag t.imageChangeParams.fromRef.name
  "Image(" ++ st.fst ++ "@" ++ st.snd ++ ", auto=" ++
    goBool t.imageChangeParams.automatic ++ ")"

/-- Embedding of `printTriggers` (source lines 212-234): an empty trigger
list prints the `<none>` marker; otherwise the per-trigger labels are
accumulated in order (the `switch` has no default case, and the image-change
case is guarded by a non-empty reference name) and joined with ", ". -/
def printTriggers (triggers : List DeploymentTriggerPolicy) : String :=
  if triggers.length == 0 then
    formatString "Triggers" "<none>"
  else
    let labels := triggers.foldl
      (fun acc t =>
        if t.type == DeploymentTriggerOnConfigChange then
          acc ++ ["Config"]
        else if t.type == DeploymentTriggerOnImageChange then
          if t.imageChangeParams.fromRef.name.length > 0 then
            acc ++ [imageTriggerLabel t]
          else acc
        else acc)
      []
    formatString "Triggers" (String.intercalate ", " labels)

/-- Spec-side label function for one trigger policy, used to state the
amended claim about `printTriggers`: an on-config-change trigger yields
"Config", an on-image-change trigger with a non-empty reference name yields
its image label, and any other trigger yields nothing. -/
def triggerLabel (t : DeploymentTriggerPolicy) : Option String :=
  if t.type == DeploymentTriggerOnConfigChange then some "Config"
  else if t.type == DeploymentTriggerOnImageChange then
    if t.imageChangeParams.fromRef.name.length > 0 then some (imageTriggerLabel t)
    else none
  else none

/-- Embedding of `multilineStringArray` (source lines 137-149).  Each token
loses one trailing newline if present; a token still containing a newline is
reflowed with a leading newline and the indent before every line; the
processed token is written back into the argument slice (`args[i] = s`), and
because Go passes a spread slice by reference this mutation is visible to the
caller, so the function returns the processed token list as well.  The
source's `strings.TrimRight(args[len(args)-1], "\n ")` discards its result
and therefore has no effect; the source's `sep` parameter is likewise unused
(the join uses a literal space). -/
def multilineStringArray (sep indent : String) (args : List String) :
    String × List String :=
  let processed := args.map (fun s =>
    let s := trimSuffixNewline s
    if containsNewline s then
      "\n" ++ indent ++ String.intercalate ("\n" ++ indent) (splitChar '\n' s)
    else s)
  (String.intercalate " " processed, processed)

/-- Embedding of the index-descending event truncation loop of `Describe`
(source lines 126-128): starting at `i = items.length`, while `i ≠ 0` and
`i > items.length - maxDisplayDeploymentsEvents`, append `items[i-1]` and
decrement.  Go's `len - 8` may be negative where the `Nat` subtraction
truncates to `0`; both make the second condition vacuous for `i ≥ 1`. -/
def latestEventsLoop (items : List Event) : Nat → List Event
  | 0 => []
  | i + 1 =>
    if i + 1 > items.length - maxDisplayDeploymentsEvents then
      items.getD i { payload := "" } :: latestEventsLoop items i
    else []

/-- Event list handed to `kctl.DescribeEvents` by `Describe`: the truncation
loop started at the full length. -/
def latestDeploymentEvents (items : List Event) : List Event :=
  latestEventsLoop items items.length

/-- Embedding of the `rcutils.OverlappingControllers` comparator from the
Kubernetes collaborator (`pkg/controller/replication`), documented there as
sorting "by creation timestamp, using their names as a tie breaker":
`Less(i,j)` is name order when the creation timestamps are equal, otherwise
timestamp order.  Go string comparison is byte-lexicographic; Lean's `String`
order (character-lexicographic) coincides on the ASCII names involved. -/
def overlappingLess (a b : ReplicationController) : Bool :=
  if a.creationTimestamp == b.creationTimestamp then
    decide (a.name < b.name)
  else
    decide (a.creationTimestamp < b.creationTimestamp)

/-- Order in which `Describe` arranges the deployment history:
`sort.Sort(sort.Reverse(rcutils.OverlappingControllers(sorted)))`, i.e. the
list rearranged so that `overlappingLess` never holds from an earlier to a
later element (descending creation timestamp, ties by descending name).
Go's `sort.Sort` is an unspecified comparison sort; it is modelled by
insertion sort, which produces a list sorted by the same comparator and
agreeing with the source on every list whose (timestamp, name) keys are
distinct. -/
def sortOverlappingReverse (items : List ReplicationController) :
    List ReplicationController :=
  List.insertionSort (fun a b => overlappingLess a b = false) items

/-- Embedding of `getPodStatusForDeployment` (source lines 317-335): list the
pods matching the deployment's selector and bucket them by phase (the
`switch` ignores any other phase). -/
def getPodStatusForDeployment (kc : KubeClient)
    (deployment : ReplicationController) :
    Except GoError (Nat × Nat × Nat × Nat) :=
  match kc.listPods deployment.nspace deployment.specSelector with
  | .error e => .error e
  | .ok pods =>
    .ok (pods.countP (fun p => p.phase == .running),
         pods.countP (fun p => p.phase == .pending),
         pods.countP (fun p => p.phase == .succeeded),
         pods.countP (fun p => p.phase == .failed))

/-- Embedding of `printDeploymentRc` (source lines 291-315).  The text chunk
written to the tab writer is returned together with the error value; on a pod
listing failure the lines already written (everything up to and including
Labels) remain in the output and the Pods Status line is not written. -/
def printDeploymentRc (ext : Externals) (kc : KubeClient)
    (deployment : ReplicationController) (header : String) (verbose : Bool) :
    String × Option GoError :=
  let headerStr := if header.length > 0 then header ++ ":\n" else ""
  let nameLine := if verbose then "\tName:\t" ++ deployment.name ++ "\n" else ""
  let timeAt := goToLower (ext.formatRelativeTime deployment.creationTimestamp)
  let base := headerStr ++ nameLine
    ++ "\tCreated:\t" ++ timeAt ++ " ago\n"
    ++ "\tStatus:\t" ++ ext.deploymentStatusFor deployment ++ "\n"
    ++ "\tReplicas:\t" ++ toString deployment.statusReplicas ++ " current / "
    ++ toString deployment.specReplicas ++ " desired\n"
  if verbose then
    let withSel := base
      ++ "\tSelector:\t" ++ ext.formatLabels deployment.specSelector ++ "\n"
      ++ "\tLabels:\t" ++ ext.formatLabels deployment.labels ++ "\n"
    match getPodStatusForDeployment kc deployment with
    | .error e => (withSel, some e)
    | .ok (running, waiting, succeeded, failed) =>
      (withSel ++ "\tPods Status:\t" ++ toString running ++ " Running / "
        ++ toString waiting ++ " Waiting / " ++ toString succeeded
        ++ " Succeeded / " ++ toString failed ++ " Failed\n", none)
  else (base, none)

/-- Embedding of `printHook` (source lines 195-210).  The hook's exec-new-pod
command passes through `multilineStringArray`, whose write-back into the
argument slice mutates the hook in place; the possibly-mutated hook is
returned alongside the text. -/
def printHook (ext : Externals) (pref : String) (hook : LifecycleHook)
    (indent : String) : String × LifecycleHook :=
  let execPart : String × Option ExecNewPodHook :=
    match hook.execNewPod with
    | some e =>
      let m := multilineStringArray " " "\t  " e.command
      (indent ++ pref ++ " hook (pod type, failure policy: "
         ++ hook.failurePolicy ++ "):\n"
       ++ indent ++ "  Container:\t" ++ e.containerName ++ "\n"
       ++ indent ++ "  Command:\t" ++ m.fst ++ "\n"
       ++ (if e.env.length > 0 then
             indent ++ "  Env:\t" ++ ext.formatLabels (convertEnv e.env) ++ "\n"
           else ""),
       some { e with command := m.snd })
    | none => ("", none)
  let tagPart : String :=
    if hook.tagImages.length > 0 then
      indent ++ pref ++ " hook (tag images, failure policy: "
        ++ hook.failurePolicy ++ "):\n"
      ++ String.join (hook.tagImages.map (fun image =>
           indent ++ "  Tag:\tcontainer " ++ image.containerName ++ " to "
             ++ image.toRef.kind ++ " " ++ image.toRef.name ++ " "
             ++ image.toRef.nspace ++ "\n"))
    else ""
  (execPart.fst ++ tagPart, { hook with execNewPod := execPart.snd })

/-- Text and mutation of one optional hook inside `printStrategy`. -/
def printHookOpt (ext : Externals) (pref : String)
    (hook : Option LifecycleHook) (indent : String) :
    String × Option LifecycleHook :=
  match hook with
  | some h =>
    let r := printHook ext pref h indent
    (r.fst, some r.snd)
  | none => ("", none)

/-- Embedding of `printStrategy` (source lines 151-193).  The custom-params
command and every hook command pass through `multilineStringArray`, which
writes the processed tokens back through the shared slice; the
possibly-mutated strategy is returned alongside the text. -/
def printStrategy (ext : Externals) (strategy : DeploymentStrategy)
    (indent : String) : String × DeploymentStrategy :=
  let customPart : String × Option CustomParams :=
    match strategy.customParams with
    | some cp =>
      let imageLine :=
        if cp.image.length == 0 then
          indent ++ "Image:\t<default>\n"
        else
          indent ++ "Image:\t" ++ cp.image ++ "\n"
      let envLine :=
        if cp.environment.length > 0 then
          indent ++ "Environment:\t"
            ++ ext.formatLabels (convertEnv cp.environment) ++ "\n"
        else ""
      let m := multilineStringArray " " "\t  " cp.command
      let cmdLine :=
        if cp.command.length > 0 then
          indent ++ "Command:\t" ++ m.fst ++ "\n"
        else ""
      (imageLine ++ envLine ++ cmdLine,
       some { cp with command := if cp.command.length > 0 then m.snd else cp.command })
    | none => ("", none)
  let recreatePart : String × Option RecreateParams :=
    match strategy.recreateParams with
    | some rp =>
      let pre := printHookOpt ext "Pre-deployment" rp.pre indent
      let mid := printHookOpt ext "Mid-deployment" rp.mid indent
      let post := printHookOpt ext "Post-deployment" rp.post indent
      (pre.fst ++ mid.fst ++ post.fst,
       some { pre := pre.snd, mid := mid.snd, post := post.snd })
    | none => ("", none)
  let rollingPart : String × Option RollingParams :=
    match strategy.rollingParams with
    | some rp =>
      let pre := printHookOpt ext "Pre-deployment" rp.pre indent
      let post := printHookOpt ext "Post-deployment" rp.post indent
      (pre.fst ++ post.fst, some { pre := pre.snd, post := post.snd })
    | none => ("", none)
  (customPart.fst ++ recreatePart.fst ++ rollingPart.fst,
   { strategy with
       customParams := customPart.snd
       recreateParams := recreatePart.snd
       rollingParams := rollingPart.snd })

/-- String form of `deployapi.Resource("DeploymentConfig")` as compared with
the autoscaler's target kind (`unversioned.GroupResource.String()` with an
empty group is the bare resource). -/
def deployResourceString : String := "DeploymentConfig"

/-- Matching test applied by `printAutoscalingInfo` to each autoscaler: its
scale target must name this config and carry the config resource kind. -/
def hpaMatches (resString nm : String) (hpa : HorizontalPodAutoscaler) : Bool :=
  hpa.spec.scaleRef.name == nm && hpa.spec.scaleRef.kind == resString

/-- Autoscaling line printed for one autoscaler by `printAutoscalingInfo`. -/
def autoscalingLine (hpa : HorizontalPodAutoscaler) : String :=
  let cpuUtil :=
    match hpa.spec.cpuUtilization with
    | some c => ", triggered at " ++ toString c.targetPercentage ++ "% CPU usage"
    | none => ""
  "Autoscaling:\tbetween " ++ toString hpa.spec.minReplicas ++ " and "
    ++ toString hpa.spec.maxReplicas ++ " replicas" ++ cpuUtil ++ "\n"

/-- Embedding of `printAutoscalingInfo` (source lines 266-289): a listing
error yields no output (and no error); otherwise the matching autoscalers are
collected in list order and the loop over them prints one line and breaks, so
only the first match is ever rendered. -/
def printAutoscalingInfo (kc : KubeClient) (resString nspace nm : String) :
    String :=
  match kc.listHPA nspace with
  | .error _ => ""
  | .ok hpaList =>
    match hpaList.filter (hpaMatches resString nm) with
    | [] => ""
    | hpa :: _ => autoscalingLine hpa

/-- Embedding of `printDeploymentConfigSpec` (source lines 236-263); returns
the text together with the config whose strategy carries the command-slice
mutations performed by `printStrategy`. -/
def printDeploymentConfigSpec (ext : Externals) (kc : KubeClient)
    (dc : DeploymentConfig) : String × DeploymentConfig :=
  let testNote :=
    if dc.spec.test then " (test, will be scaled down between deployments)"
    else ""
  let strategyPart := printStrategy ext dc.spec.strategy "  "
  (formatString "Selector" (ext.formatLabels dc.spec.selector)
    ++ formatString "Replicas" (toString dc.spec.replicas ++ testNote)
    ++ printAutoscalingInfo kc deployResourceString dc.meta.nspace dc.meta.name
    ++ printTriggers dc.spec.triggers
    ++ formatString "Strategy" dc.spec.strategy.type
    ++ strategyPart.fst
    ++ "Template:\n" ++ ext.describePodTemplate dc.spec.template,
   { dc with spec := { dc.spec with strategy := strategyPart.snd } })

/-- Version line of `Describe` (source lines 77-81): "Not deployed" when the
config's latest version is zero, otherwise its decimal rendering
(`strconv.FormatInt(v, 10)`). -/
def latestVersionLine (v : Int) : String :=
  if v == 0 then formatString "Latest Version" "Not deployed"
  else formatString "Latest Version" (toString v)

/-- Latest-deployment section of `Describe` (source lines 91-101): a
not-found fetch error degrades to the `<none>` marker, any other fetch error
to an inline error marker, and a fetched deployment is rendered verbosely
under a "(latest)" header (the error value of `printDeploymentRc` is
discarded by the source). -/
def latestDeploymentBlock (ext : Externals) (kc : KubeClient)
    (nspace deploymentName : String) : String :=
  match kc.getRC nspace deploymentName with
  | .error e =>
    if e.isNotFound then formatString "Latest Deployment" "<none>"
    else formatString "Latest Deployment" ("error: " ++ e.message)
  | .ok deployment =>
    let header := "Deployment #" ++ toString (ext.deploymentVersionFor deployment)
      ++ " (latest)"
    (printDeploymentRc ext kc deployment header true).fst

/-- Selection test of the history loop: the item is not the latest deployment
and belongs to this config. -/
def histMatch (ext : Externals) (configName deploymentName : String)
    (item : ReplicationController) : Bool :=
  item.name != deploymentName && configName == ext.deploymentConfigNameFor item

/-- Embedding of the history loop of `Describe` (source lines 108-118) as the
list of deployments it prints, in print order: `counter` starts at 1, a
matching item is printed and increments it, and the loop breaks as soon as
`counter == maxDisplayDeployments` (checked after each iteration, whether or
not it printed). -/
def historyItems (ext : Externals) (configName deploymentName : String) :
    Nat → List ReplicationController → List ReplicationController
  | _, [] => []
  | counter, item :: rest =>
    if histMatch ext configName deploymentName item then
      if counter + 1 == maxDisplayDeployments then [item]
      else item :: historyItems ext configName deploymentName (counter + 1) rest
    else
      if counter == maxDisplayDeployments then []
      else historyItems ext configName deploymentName counter rest

/-- Text written by the history loop: each printed deployment is rendered
non-verbosely under a numbered header. -/
def historyString (ext : Externals) (kc : KubeClient)
    (configName deploymentName : String)
    (sorted : List ReplicationController) : String :=
  String.join ((historyItems ext configName deploymentName 1 sorted).map
    (fun item =>
      (printDeploymentRc ext kc item
        ("Deployment #" ++ toString (ext.deploymentVersionFor item)) false).fst))

/-- Warning section of `Describe` (source lines 86-88): printed only when
the config's status details carry a non-empty message. -/
def describeWarning (cfg : DeploymentConfig) : String :=
  match cfg.status.details with
  | some d => if d.message.length > 0 then "Warning:\t" ++ d.message ++ "\n" else ""
  | none => ""

/-- History section of `Describe` (source lines 102-120): skipped when the
describer was constructed with a config; a listing error silently drops the
section; otherwise the items are sorted with the reversed
overlapping-controllers comparator and fed to the capped printing loop. -/
def describeHistoryBlock (ext : Externals) (kc : KubeClient) (provided : Bool)
    (configName deploymentName nspace : String) : String :=
  if !provided then
    match kc.listRC nspace with
    | .error _ => ""
    | .ok items =>
      historyString ext kc configName deploymentName
        (sortOverlappingReverse items)
  else ""

/-- Event section of `Describe` (source lines 122-132): rendered only when
requested, the search succeeded and returned a non-nil list; the list is
reverse-truncated to the most recent `maxDisplayDeploymentsEvents`. -/
def describeEventsBlock (ext : Externals) (kc : KubeClient)
    (cfg : DeploymentConfig) (settings : DescriberSettings) : String :=
  if settings.showEvents then
    match kc.searchEvents cfg.meta.nspace cfg with
    | .ok (some events) =>
      "\n" ++ ext.describeEvents (latestDeploymentEvents events)
    | _ => ""
  else ""

/-- Body of `DeploymentConfigDescriber.Describe` (source lines 74-134) once
the config is resolved: the closure handed to `tabbedString`.  `provided`
records whether the describer was constructed with a config
(`d.config != nil`), in which case the history section is skipped.  The
external tab-alignment pass the source pipes the text through
(`text/tabwriter`, an out-of-scope collaborator per the spec) is not
modelled; the returned string is the tab-delimited text written to it.  The
config is returned as mutated by the command write-backs. -/
def describeBody (ext : Externals) (kc : KubeClient) (provided : Bool)
    (cfg : DeploymentConfig) (nspace : String)
    (settings : DescriberSettings) : String × DeploymentConfig :=
  let specPart := printDeploymentConfigSpec ext kc cfg
  let cfg' := specPart.snd
  let deploymentName := ext.latestDeploymentNameForConfig cfg'
  (ext.formatMeta cfg.meta
    ++ latestVersionLine cfg.status.latestVersion
    ++ specPart.fst
    ++ "\n"
    ++ describeWarning cfg'
    ++ latestDeploymentBlock ext kc nspace deploymentName
    ++ describeHistoryBlock ext kc provided cfg'.meta.name deploymentName nspace
    ++ describeEventsBlock ext kc cfg' settings,
   cfg')

/-- Embedding of `DeploymentConfigDescriber.Describe` (source lines 60-135):
with a provided config the fetch is skipped; otherwise a config fetch failure
is returned to the caller with no output; the rendering closure itself never
fails (it discards the errors of its sub-printers), so `tabbedString`
returns the accumulated text. -/
def Describe (ext : Externals) (osc : OsClient) (kc : KubeClient)
    (dConfig : Option DeploymentConfig) (nspace nm : String)
    (settings : DescriberSettings) :
    Except GoError (String × DeploymentConfig) :=
  match dConfig with
  | some c => .ok (describeBody ext kc true c nspace settings)
  | none =>
    match osc.getDeploymentConfig nspace nm with
    | .error e => .error e
    | .ok c => .ok (describeBody ext kc false c nspace settings)

/-!
Embedding of `REST.Get` from `src/pkg/user/registry/user/etcd/etcd.go`.
The generic store (`registry.Store.Get`), the user-name validator
(`validation.ValidateUserName`, outside the provided sources) and the
authentication context are inputs; the theorems hold for every validator.
-/

/-- Modelled from the spec: the well-known unauthenticated virtual group name
(`bootstrappolicy.UnauthenticatedGroup`, outside the provided sources). -/
def UnauthenticatedGroup : String := "system:unauthenticated"

/-- Modelled from the spec: the well-known authenticated virtual group name
(`bootstrappolicy.AuthenticatedGroup`, outside the provided sources). -/
def AuthenticatedGroup : String := "system:authenticated"

/-- Authenticated user information carried by the request context
(`user.Info`: name and groups). -/
structure UserInfo where
  name : String
  groups : List String
deriving DecidableEq

/-- Request context: `kapi.UserFrom(ctx)` either yields a user or fails. -/
structure UserContext where
  user : Option UserInfo

/-- Embedding of `api.User` restricted to the fields `REST.Get` constructs
and returns (object name and groups). -/
structure User where
  name : String
  groups : List String
deriving DecidableEq

/-- Errors of the backing store's `Get`, distinguished exactly as the source
does (`kerrs.IsNotFound` or anything else). -/
inductive StoreError where
  | notFound (msg : String)
  | other (msg : String)
deriving DecidableEq

/-- Embedding of `kerrs.IsNotFound` on store errors. -/
def StoreError.isNotFound : StoreError → Bool
  | .notFound _ => true
  | .other _ => false

/-- The generic registry store collaborator (get by name). -/
structure UserStore where
  get : String → Except StoreError User

/-- Errors returned by `REST.Get`: the Forbidden error built for
unauthenticated `~` requests, the invalid-field error built for invalid
names, or a store error passed through. -/
inductive RESTError where
  | forbidden (resource nm msg : String)
  | fieldInvalid (path value details : String)
  | store (e : StoreError)
deriving DecidableEq

/-- Embedding of `sets.NewString(...).List()` after deletions: the distinct
strings in ascending order (`sets.String` is a map keyed by the string and
`List` sorts the keys). -/
def stringSetList (xs : List String) : List String :=
  List.insertionSort (fun a b => a ≤ b) xs.eraseDups

/-- Embedding of `REST.Get` (source lines 63-99).  `validate` stands for
`validation.ValidateUserName` (name, a flag the source passes as `false`;
returns whether the name is valid together with the detail string). -/
def RESTGet (validate : String → Bool → Bool × String) (store : UserStore)
    (ctx : UserContext) (nm : String) : Except RESTError User :=
  if nm == "~" then
    match ctx.user with
    | none => .error (.forbidden "user" "~" "requests to ~ must be authenticated")
    | some u =>
      if u.name == "" then
        .error (.forbidden "user" "~" "requests to ~ must be authenticated")
      else
        let contextGroups := stringSetList (u.groups.filter
          (fun g => !(g == UnauthenticatedGroup) && !(g == AuthenticatedGroup)))
        if (validate u.name false).fst == false then
          .ok { name := u.name, groups := contextGroups }
        else
          match store.get u.name with
          | .ok obj => .ok obj
          | .error e =>
            if e.isNotFound == false then .error (.store e)
            else .ok { name := u.name, groups := contextGroups }
  else
    if (validate nm false).fst == false then
      .error (.fieldInvalid "metadata.name" nm (validate nm false).snd)
    else
      match store.get nm with
      | .ok obj => .ok obj
      | .error e => .error (.store e)

/-!
Concrete fixtures used by counterexamples and witnesses.
-/

/-- Trivial oracle instantiation: every opaque helper returns the empty
string, the latest deployment is named like its config, versions are read
from nothing, and the owning config of an instance is its own name. -/
def extT : Externals where
  formatMeta := fun _ => ""
  formatLabels := fun _ => ""
  formatRelativeTime := fun _ => ""
  describePodTemplate := fun _ => ""
  describeEvents := fun _ => ""
  latestDeploymentNameForConfig := fun c => c.meta.name
  deploymentVersionFor := fun _ => 0
  deploymentConfigNameFor := fun rc => rc.name
  deploymentStatusFor := fun _ => ""

/-- Kubernetes client whose every call fails (the latest-deployment fetch
with not-found, the rest with a generic error). -/
def kcT : KubeClient where
  getRC := fun _ _ => .error (.notFound "replicationcontrollers not found")
  listRC := fun _ => .error (.other "boom")
  searchEvents := fun _ _ => .error (.other "boom")
  listHPA := fun _ => .error (.other "boom")
  listPods := fun _ _ => .error (.other "boom")

/-- Deployment instance fixture with the given name and creation instant. -/
def rcMk (nm : String) (ts : Int) : ReplicationController :=
  { name := nm, nspace := "ns", creationTimestamp := ts, labels := []
  , specReplicas := 1, specSelector := [], statusReplicas := 1 }

/-- Oracle fixture whose annotation readers assign every instance the owning
config "cfg" and version 1 to the instance named "cfg-1", 2 to others. -/
def extV : Externals :=
  { extT with
      deploymentVersionFor := fun rc => if rc.name == "cfg-1" then 1 else 2
      deploymentConfigNameFor := fun _ => "cfg" }

/-- Describer settings fixture with the event section disabled. -/
def stT : DescriberSettings := { showEvents := false }

/-!
Ordering facts about the history section (claims C1 and C2).
-/

/-- Comparator under which the source arranges the history before printing:
`a` precedes `b` when `overlappingLess a b` fails, i.e. descending creation
timestamp with descending name as tie breaker. -/
def rcGE (a b : ReplicationController) : Prop :=
  overlappingLess a b = false

instance : DecidableRel rcGE :=
  fun a b => inferInstanceAs (Decidable (overlappingLess a b = false))

/-- Characterization of the reversed overlapping-controllers comparator. -/
theorem rcGE_iff (a b : ReplicationController) :
    rcGE a b ↔
      b.creationTimestamp < a.creationTimestamp ∨
        (a.creationTimestamp = b.creationTimestamp ∧ b.name ≤ a.name) := by
  unfold rcGE overlappingLess
  by_cases h : a.creationTimestamp = b.creationTimestamp
  · simp [h, not_lt]
  · have hne : (a.creationTimestamp == b.creationTimestamp) = false := by
      simpa using h
    simp only [hne, Bool.false_eq_true, if_false, decide_eq_false_iff_not, not_lt]
    constructor
    · intro hle
      exact Or.inl (lt_of_le_of_ne hle (fun hh => h hh.symm))
    · rintro (hlt | ⟨he, _⟩)
      · exact le_of_lt hlt
      · exact absurd he h

instance : IsTotal ReplicationController rcGE := by
  constructor
  intro a b
  rw [rcGE_iff, rcGE_iff]
  rcases lt_trichotomy a.creationTimestamp b.creationTimestamp with h | h | h
  · exact Or.inr (Or.inl h)
  · rcases le_total a.name b.name with hn | hn
    · exact Or.inr (Or.inr ⟨h.symm, hn⟩)
    · exact Or.inl (Or.inr ⟨h, hn⟩)
  · exact Or.inl (Or.inl h)

instance : IsTrans ReplicationController rcGE := by
  constructor
  intro a b c hab hbc
  rw [rcGE_iff] at hab hbc ⊢
  rcases hab with h1 | ⟨e1, n1⟩ <;> rcases hbc with h2 | ⟨e2, n2⟩
  · exact Or.inl (h2.trans h1)
  · exact Or.inl (e2 ▸ h1)
  · exact Or.inl (e1 ▸ h2)
  · exact Or.inr ⟨e1.trans e2, n2.trans n1⟩

/-- The sorted history is pairwise ordered by the reversed comparator. -/
theorem sortOverlappingReverse_pairwise (items : List ReplicationController) :
    (sortOverlappingReverse items).Pairwise rcGE := by
  have h := List.sorted_insertionSort rcGE items
  simpa [sortOverlappingReverse, rcGE] using h

/-- The sorted history is a permutation of the listed instances. -/
theorem sortOverlappingReverse_perm (items : List ReplicationController) :
    List.Perm (sortOverlappingReverse items) items := by
  simpa [sortOverlappingReverse, rcGE] using List.perm_insertionSort rcGE items

/-- The instances printed by the history loop form a sublist (order
preserved) of the list it walks. -/
theorem historyItems_sublist (ext : Externals) (cn dn : String) :
    ∀ (c : Nat) (l : List ReplicationController),
      List.Sublist (historyItems ext cn dn c l) l := by
  intro c l
  induction l generalizing c with
  | nil => simp [historyItems]
  | cons x xs ih =>
    rw [historyItems]
    by_cases h : histMatch ext cn dn x = true
    · rw [if_pos h]
      by_cases h2 : (c + 1 = maxDisplayDeployments)
      · simp only [h2, if_pos]
        exact (List.nil_sublist xs).cons₂ x
      · rw [if_neg (by simpa using h2)]
        exact (ih (c + 1)).cons₂ x
    · rw [if_neg h]
      by_cases h2 : (c = maxDisplayDeployments)
      · simp only [h2, if_pos]
        exact List.nil_sublist _
      · rw [if_neg (by simpa using h2)]
        exact (ih c).cons x

/-- C1 (amended): the prior-deployment blocks of the config-level summary
appear in the order of the reversed overlapping-controllers comparator —
descending creation timestamp, ties broken by descending name; the version
number is not consulted by the sort. -/
theorem history_sorted_by_timestamp_then_name (ext : Externals)
    (configName deploymentName : String) (items : List ReplicationController) :
    (historyItems ext configName deploymentName 1
        (sortOverlappingReverse items)).Pairwise rcGE :=
  (sortOverlappingReverse_pairwise items).sublist
    (historyItems_sublist ext configName deploymentName 1 _)

/-- C1 (counterexample): with instance `cfg-1` (version 1) created after
`cfg-2` (version 2), both owned by config "cfg" and distinct from the latest
deployment, the rendered prior list is `cfg-1` before `cfg-2` — version 1
before version 2, i.e. ascending, refuting "sorted strictly descending by
version". -/
theorem history_version_order_counterexample :
    historyItems extV "cfg" "cfg-3" 1
        (sortOverlappingReverse [rcMk "cfg-2" 5, rcMk "cfg-1" 10]) =
      [rcMk "cfg-1" 10, rcMk "cfg-2" 5] ∧
    extV.deploymentVersionFor (rcMk "cfg-1" 10) <
      extV.deploymentVersionFor (rcMk "cfg-2" 5) := by
  constructor
  · decide
  · decide

/-- Bound form of the history loop: starting below the cap, at most
`maxDisplayDeployments - c` instances are printed. -/
theorem historyItems_length_le (ext : Externals) (cn dn : String) :
    ∀ (l : List ReplicationController) (c : Nat), c < maxDisplayDeployments →
      (historyItems ext cn dn c l).length ≤ maxDisplayDeployments - c := by
  intro l
  induction l with
  | nil => intro c _; simp [historyItems]
  | cons x xs ih =>
    intro c hc
    rw [historyItems]
    by_cases h : histMatch ext cn dn x = true
    · rw [if_pos h]
      by_cases h2 : (c + 1 = maxDisplayDeployments)
      · rw [h2, if_pos (by decide :
          ((maxDisplayDeployments == maxDisplayDeployments) = true))]
        simp only [List.length_cons, List.length_nil]
        omega
      · rw [if_neg (by simpa using h2)]
        have := ih (c + 1) (by omega)
        simp only [List.length_cons]
        omega
    · rw [if_neg h]
      rw [if_neg (by simpa using Nat.ne_of_lt hc)]
      have := ih c hc
      omega

/-- Exact form of the history loop count: when at least
`maxDisplayDeployments - c` matching instances remain, exactly that many are
printed. -/
theorem historyItems_length_eq (ext : Externals) (cn dn : String) :
    ∀ (l : List ReplicationController) (c : Nat), c < maxDisplayDeployments →
      maxDisplayDeployments - c ≤ l.countP (histMatch ext cn dn) →
      (historyItems ext cn dn c l).length = maxDisplayDeployments - c := by
  intro l
  induction l with
  | nil =>
    intro c hc hcount
    simp only [List.countP_nil] at hcount
    omega
  | cons x xs ih =>
    intro c hc hcount
    rw [historyItems]
    by_cases h : histMatch ext cn dn x = true
    · rw [if_pos h]
      by_cases h2 : (c + 1 = maxDisplayDeployments)
      · rw [h2, if_pos (by decide :
          ((maxDisplayDeployments == maxDisplayDeployments) = true))]
        simp only [List.length_cons, List.length_nil]
        omega
      · rw [if_neg (by simpa using h2)]
        rw [List.countP_cons_of_pos _ _ h] at hcount
        have := ih (c + 1) (by omega) (by omega)
        simp only [List.length_cons]
        omega
    · rw [if_neg h]
      rw [if_neg (by simpa using Nat.ne_of_lt hc)]
      rw [List.countP_cons_of_neg _ _ (by simpa using h)] at hcount
      exact ih c hc hcount

/-- C2 (amended): the prior-deployment blocks of the config-level summary
are capped at 2, not 3 — the `maxDisplayDeployments = 3` budget counts the
separately rendered latest deployment, and the loop counter starts at 1 — so
at most 2 prior blocks are rendered, and any input with at least 2 prior
deployments of the config renders exactly 2. -/
theorem history_cap_is_two (ext : Externals) (cn dn : String)
    (items : List ReplicationController) :
    (historyItems ext cn dn 1 (sortOverlappingReverse items)).length ≤ 2 ∧
    (2 ≤ items.countP (histMatch ext cn dn) →
      (historyItems ext cn dn 1 (sortOverlappingReverse items)).length = 2) := by
  constructor
  · have h := historyItems_length_le ext cn dn (sortOverlappingReverse items) 1
      (by decide)
    simpa [maxDisplayDeployments] using h
  · intro hcount
    have hperm := (sortOverlappingReverse_perm items).countP_eq
      (histMatch ext cn dn)
    have h := historyItems_length_eq ext cn dn (sortOverlappingReverse items) 1
      (by decide) (by rw [hperm]; simpa [maxDisplayDeployments] using hcount)
    simpa [maxDisplayDeployments] using h

/-- C2 (witness): the claim's scenario — latest deployment `cfg-3`, instances
v1, v2, v3 supplied — has two prior deployments of the config, renders
exactly two prior blocks by the amended cap theorem, and those blocks are v2
then v1 (both kept). -/
theorem history_cap_is_two_witness :
    2 ≤ List.countP (histMatch extV "cfg" "cfg-3")
        [rcMk "cfg-1" 10, rcMk "cfg-2" 20, rcMk "cfg-3" 30] ∧
    (historyItems extV "cfg" "cfg-3" 1
        (sortOverlappingReverse
          [rcMk "cfg-1" 10, rcMk "cfg-2" 20, rcMk "cfg-3" 30])).length = 2 ∧
    historyItems extV "cfg" "cfg-3" 1
        (sortOverlappingReverse
          [rcMk "cfg-1" 10, rcMk "cfg-2" 20, rcMk "cfg-3" 30]) =
      [rcMk "cfg-2" 20, rcMk "cfg-1" 10] :=
  ⟨by decide,
   (history_cap_is_two extV "cfg" "cfg-3"
      [rcMk "cfg-1" 10, rcMk "cfg-2" 20, rcMk "cfg-3" 30]).2 (by decide),
   by decide⟩

/-- C2 (counterexample): an input holding three prior deployments of the
config (none of them the latest) renders two prior blocks, not the claimed
three. -/
theorem history_cap_counterexample :
    List.countP (histMatch extV "cfg" "cfg-9")
        [rcMk "cfg-5" 50, rcMk "cfg-4" 40, rcMk "cfg-2" 20] = 3 ∧
    (historyItems extV "cfg" "cfg-9" 1
        (sortOverlappingReverse
          [rcMk "cfg-5" 50, rcMk "cfg-4" 40, rcMk "cfg-2" 20])).length = 2 := by
  constructor
  · decide
  · decide

/-!
Decomposition of the rendered text (claims C3 and C4).
-/

/-- Right-associated decomposition of the text produced by `describeBody`,
making each section a visible summand. -/
theorem describeBody_fst_eq (ext : Externals) (kc : KubeClient)
    (provided : Bool) (cfg : DeploymentConfig) (nspace : String)
    (settings : DescriberSettings) :
    (describeBody ext kc provided cfg nspace settings).fst =
      ext.formatMeta cfg.meta ++
        (latestVersionLine cfg.status.latestVersion ++
          ((printDeploymentConfigSpec ext kc cfg).fst ++
            ("\n" ++
              (describeWarning (printDeploymentConfigSpec ext kc cfg).snd ++
                (latestDeploymentBlock ext kc nspace
                    (ext.latestDeploymentNameForConfig
                      (printDeploymentConfigSpec ext kc cfg).snd) ++
                  (describeHistoryBlock ext kc provided
                      (printDeploymentConfigSpec ext kc cfg).snd.meta.name
                      (ext.latestDeploymentNameForConfig
                        (printDeploymentConfigSpec ext kc cfg).snd) nspace ++
                    describeEventsBlock ext kc
                      (printDeploymentConfigSpec ext kc cfg).snd settings)))))) := by
  simp only [describeBody, String.append_assoc]

/-- C3: every render opens with the metadata section followed by the version
line, which reads "Not deployed" exactly when the config's latest version is
zero and shows the decimal version otherwise — independently of the client
(hence of any supplied deployment instances). -/
theorem latest_version_line_rendered (ext : Externals) (kc : KubeClient)
    (provided : Bool) (cfg : DeploymentConfig) (nspace : String)
    (settings : DescriberSettings) :
    (∃ rest, (describeBody ext kc provided cfg nspace settings).fst =
        ext.formatMeta cfg.meta ++
          (latestVersionLine cfg.status.latestVersion ++ rest)) ∧
    (cfg.status.latestVersion = 0 →
      latestVersionLine cfg.status.latestVersion =
        "Latest Version:\tNot deployed\n") ∧
    (cfg.status.latestVersion ≠ 0 →
      latestVersionLine cfg.status.latestVersion =
        "Latest Version:\t" ++ toString cfg.status.latestVersion ++ "\n") := by
  refine ⟨⟨_, describeBody_fst_eq ext kc provided cfg nspace settings⟩, ?_, ?_⟩
  · intro h
    simp only [latestVersionLine, h]
    rfl
  · intro h
    have hb : (cfg.status.latestVersion == 0) = false := by simpa using h
    simp only [latestVersionLine, hb, Bool.false_eq_true, if_false, formatString]
    rfl

/-- Config fixture with no deployments yet. -/
def cfgV0 : DeploymentConfig :=
  { meta := { name := "cfg", nspace := "ns" }
  , spec :=
    { selector := [], replicas := 1, test := false, triggers := []
    , strategy :=
      { type := "Rolling", customParams := none, recreateParams := none
      , rollingParams := none }
    , template := { tag := "" } }
  , status := { latestVersion := 0, details := none } }

/-- Config fixture at version 3. -/
def cfgV3 : DeploymentConfig :=
  { cfgV0 with status := { latestVersion := 3, details := none } }

/-- C3 (witness): the version-line theorem applied at a config with latest
version 0 and at one with latest version 3. -/
theorem latest_version_line_rendered_witness :
    latestVersionLine (0 : Int) = "Latest Version:\tNot deployed\n" ∧
    latestVersionLine (3 : Int) = "Latest Version:\t3\n" :=
  ⟨(latest_version_line_rendered extT kcT true cfgV0 "ns" stT).2.1 rfl,
   (latest_version_line_rendered extT kcT true cfgV3 "ns" stT).2.2 (by decide)⟩

/-- C4: a failing config fetch aborts `Describe` with the fetch error and no
output; a not-found failure fetching the latest deployment degrades that
section to the `<none>` marker; any other failure there degrades it to an
inline error marker; a successful config fetch always renders (the body
never fails), and the latest-deployment section appears inside every
rendered body. -/
theorem describe_failure_semantics (ext : Externals) (osc : OsClient)
    (kc : KubeClient) (nspace nm dn : String) (settings : DescriberSettings) :
    (∀ e, osc.getDeploymentConfig nspace nm = .error e →
      Describe ext osc kc none nspace nm settings = .error e) ∧
    (∀ e, kc.getRC nspace dn = .error e → e.isNotFound = true →
      latestDeploymentBlock ext kc nspace dn = "Latest Deployment:\t<none>\n") ∧
    (∀ e, kc.getRC nspace dn = .error e → e.isNotFound = false →
      latestDeploymentBlock ext kc nspace dn =
        "Latest Deployment:\terror: " ++ e.message ++ "\n") ∧
    (∀ cfg, osc.getDeploymentConfig nspace nm = .ok cfg →
      Describe ext osc kc none nspace nm settings =
        .ok (describeBody ext kc false cfg nspace settings)) ∧
    (∀ provided cfg, ∃ pre post,
      (describeBody ext kc provided cfg nspace settings).fst =
        pre ++ (latestDeploymentBlock ext kc nspace
          (ext.latestDeploymentNameForConfig
            (printDeploymentConfigSpec ext kc cfg).snd) ++ post)) := by
  refine ⟨?_, ?_, ?_, ?_, ?_⟩
  · intro e he
    simp [Describe, he]
  · intro e he hnf
    simp only [latestDeploymentBlock, he, hnf, if_true, formatString]
    rfl
  · intro e he hnf
    simp only [latestDeploymentBlock, he, hnf, Bool.false_eq_true, if_false,
      formatString]
    rfl
  · intro cfg hc
    simp [Describe, hc]
  · intro provided cfg
    refine ⟨ext.formatMeta cfg.meta
        ++ latestVersionLine cfg.status.latestVersion
        ++ (printDeploymentConfigSpec ext kc cfg).fst ++ "\n"
        ++ describeWarning (printDeploymentConfigSpec ext kc cfg).snd,
      describeHistoryBlock ext kc provided
          (printDeploymentConfigSpec ext kc cfg).snd.meta.name
          (ext.latestDeploymentNameForConfig
            (printDeploymentConfigSpec ext kc cfg).snd) nspace
        ++ describeEventsBlock ext kc
            (printDeploymentConfigSpec ext kc cfg).snd settings, ?_⟩
    rw [describeBody_fst_eq]
    simp [String.append_assoc]

/-- OpenShift client fixture whose config fetch fails. -/
def oscErr : OsClient :=
  { getDeploymentConfig := fun _ _ => .error (.other "config gone") }

/-- Kubernetes client fixture whose latest-deployment fetch fails with an
error that is not not-found. -/
def kcErr : KubeClient :=
  { kcT with getRC := fun _ _ => .error (.other "connection refused") }

/-- C4 (witness): the failure-semantics theorem applied at a failing config
fetch, a not-found deployment fetch, and a connectivity failure. -/
theorem describe_failure_semantics_witness :
    Describe extT oscErr kcT none "ns" "cfg" stT = .error (.other "config gone") ∧
    latestDeploymentBlock extT kcT "ns" "cfg-1" = "Latest Deployment:\t<none>\n" ∧
    latestDeploymentBlock extT kcErr "ns" "cfg-1" =
      "Latest Deployment:\terror: " ++ (GoError.other "connection refused").message
        ++ "\n" :=
  ⟨(describe_failure_semantics extT oscErr kcT "ns" "cfg" "cfg-1" stT).1 _ rfl,
   (describe_failure_semantics extT oscErr kcT "ns" "cfg" "cfg-1" stT).2.1 _ rfl rfl,
   (describe_failure_semantics extT oscErr kcErr "ns" "cfg" "cfg-1" stT).2.2.1 _ rfl rfl⟩

/-!
Event truncation (claim C5).
-/

/-- Characterization of the event-collection loop: started at `i ≤ n`, it
collects the prefix of length `i` with its first `n - 8` entries dropped, in
reverse. -/
theorem latestEventsLoop_eq (items : List Event) :
    ∀ i, i ≤ items.length →
      latestEventsLoop items i =
        ((items.take i).drop
          (items.length - maxDisplayDeploymentsEvents)).reverse := by
  intro i
  induction i with
  | zero => intro _; simp [latestEventsLoop]
  | succ k ih =>
    intro h
    rw [latestEventsLoop]
    by_cases hc : k + 1 > items.length - maxDisplayDeploymentsEvents
    · rw [if_pos hc]
      rw [ih (by omega)]
      have hk : k < items.length := by omega
      have ht : items[k]? = some items[k] := List.getElem?_eq_getElem hk
      have hged : items.getD k { payload := "" } = items[k] := by
        rw [List.getD_eq_getElem?_getD, ht]
        rfl
      rw [hged, List.take_succ, ht]
      have hlen : items.length - maxDisplayDeploymentsEvents ≤
          (items.take k).length := by
        simp only [List.length_take]
        omega
      rw [List.drop_append_of_le_length hlen]
      simp
    · rw [if_neg hc]
      have hlen : (items.take (k + 1)).length ≤
          items.length - maxDisplayDeploymentsEvents := by
        simp only [List.length_take]
        omega
      rw [List.drop_eq_nil_of_le hlen, List.reverse_nil]

/-- C5: the event section receives exactly the last
`min n maxDisplayDeploymentsEvents` of the `n` events returned oldest-first
by the collaborator, in reversed (newest-first) order. -/
theorem events_truncated_newest_first (items : List Event) :
    latestDeploymentEvents items =
      (items.drop (items.length - maxDisplayDeploymentsEvents)).reverse ∧
    (latestDeploymentEvents items).length =
      min items.length maxDisplayDeploymentsEvents := by
  have h := latestEventsLoop_eq items items.length (le_refl _)
  rw [List.take_length] at h
  refine ⟨h, ?_⟩
  show (latestEventsLoop items items.length).length = _
  rw [h]
  simp only [List.length_reverse, List.length_drop]
  omega

/-!
Autoscaling section (claim C6).
-/

/-- On a successful `find?`, the found element heads the filtered list. -/
theorem filter_cons_of_find? {α : Type} (p : α → Bool) :
    ∀ (l : List α) (a : α), l.find? p = some a →
      ∃ t, l.filter p = a :: t := by
  intro l
  induction l with
  | nil => intro a h; simp [List.find?] at h
  | cons x xs ih =>
    intro a h
    by_cases hx : p x = true
    · rw [List.find?_cons_of_pos _ hx] at h
      obtain rfl : x = a := Option.some.inj h
      exact ⟨xs.filter p, by rw [List.filter_cons_of_pos hx]⟩
    · rw [List.find?_cons_of_neg _ (by simpa using hx)] at h
      obtain ⟨t, ht⟩ := ih a h
      exact ⟨t, by rw [List.filter_cons_of_neg (by simpa using hx)]; exact ht⟩

/-- C6: a failed autoscaler listing silently yields no autoscaling section
and no error; when the listing succeeds and at least one autoscaler targets
this config, exactly the first matching one (in collaborator-list order) is
rendered as its single autoscaling line, whatever else matches. -/
theorem autoscaling_renders_first_only (kc : KubeClient) (nspace nm : String) :
    (∀ e, kc.listHPA nspace = .error e →
      printAutoscalingInfo kc deployResourceString nspace nm = "") ∧
    (∀ l hpa, kc.listHPA nspace = .ok l →
      l.find? (hpaMatches deployResourceString nm) = some hpa →
      printAutoscalingInfo kc deployResourceString nspace nm =
        autoscalingLine hpa) := by
  constructor
  · intro e he
    simp [printAutoscalingInfo, he]
  · intro l hpa hl hf
    obtain ⟨t, ht⟩ := filter_cons_of_find? _ l hpa hf
    simp [printAutoscalingInfo, hl, ht]

/-- Autoscaler fixture bound to the config "cfg" with a CPU trigger. -/
def hpa1 : HorizontalPodAutoscaler :=
  { spec :=
    { scaleRef := { kind := "DeploymentConfig", name := "cfg" }
    , minReplicas := 1, maxReplicas := 5
    , cpuUtilization := some { targetPercentage := 80 } } }

/-- Second autoscaler fixture bound to the same config. -/
def hpa2 : HorizontalPodAutoscaler :=
  { spec :=
    { scaleRef := { kind := "DeploymentConfig", name := "cfg" }
    , minReplicas := 2, maxReplicas := 9
    , cpuUtilization := none } }

/-- Autoscaler fixture bound to a different config. -/
def hpaOther : HorizontalPodAutoscaler :=
  { spec :=
    { scaleRef := { kind := "DeploymentConfig", name := "elsewhere" }
    , minReplicas := 1, maxReplicas := 2
    , cpuUtilization := none } }

/-- Kubernetes client fixture listing two autoscalers bound to "cfg" (after
one bound elsewhere). -/
def kcHPA : KubeClient :=
  { kcT with listHPA := fun _ => .ok [hpaOther, hpa1, hpa2] }

/-- C6 (witness): with two autoscalers bound to the config, the rendered
section is exactly the line of the first one. -/
theorem autoscaling_renders_first_only_witness :
    List.find? (hpaMatches deployResourceString "cfg") [hpaOther, hpa1, hpa2] =
      some hpa1 ∧
    printAutoscalingInfo kcHPA deployResourceString "ns" "cfg" =
      autoscalingLine hpa1 ∧
    autoscalingLine hpa1 =
      "Autoscaling:\tbetween 1 and 5 replicas, triggered at 80% CPU usage\n" :=
  ⟨by decide,
   (autoscaling_renders_first_only kcHPA "ns" "cfg").2 _ hpa1 rfl (by decide),
   by decide⟩

/-!
Trigger summary (claim C7).
-/

/-- The label fold of `printTriggers` accumulates exactly the labels that
`triggerLabel` assigns, in order. -/
theorem triggers_foldl_labels (l : List DeploymentTriggerPolicy) :
    ∀ acc : List String,
      l.foldl (fun acc t =>
        if t.type == DeploymentTriggerOnConfigChange then acc ++ ["Config"]
        else if t.type == DeploymentTriggerOnImageChange then
          if t.imageChangeParams.fromRef.name.length > 0 then
            acc ++ [imageTriggerLabel t]
          else acc
        else acc) acc = acc ++ l.filterMap triggerLabel := by
  induction l with
  | nil => intro acc; simp
  | cons x xs ih =>
    intro acc
    rw [List.foldl_cons, List.filterMap_cons]
    by_cases h1 : (x.type == DeploymentTriggerOnConfigChange) = true
    · rw [if_pos h1]
      have hx : triggerLabel x = some "Config" := by simp [triggerLabel, h1]
      rw [hx, ih (acc ++ ["Config"])]
      simp [List.append_assoc]
    · rw [if_neg h1]
      by_cases h2 : (x.type == DeploymentTriggerOnImageChange) = true
      · rw [if_pos h2]
        by_cases h3 : x.imageChangeParams.fromRef.name.length > 0
        · rw [if_pos h3]
          have hx : triggerLabel x = some (imageTriggerLabel x) := by
            simp [triggerLabel, h1, h2, h3]
          rw [hx, ih (acc ++ [imageTriggerLabel x])]
          simp [List.append_assoc]
        · rw [if_neg h3]
          have hx : triggerLabel x = none := by
            simp [triggerLabel, h1, h2, h3]
          rw [hx, ih acc]
      · rw [if_neg h2]
        have hx : triggerLabel x = none := by simp [triggerLabel, h1, h2]
        rw [hx, ih acc]

/-- C7 (amended): an empty trigger list renders the literal `<none>` marker;
a non-empty list renders the comma-joined labels, where an on-config-change
trigger contributes "Config", an on-image-change trigger with a non-empty
image-stream reference name contributes its Image label, and any other
trigger — in particular an on-image-change trigger with an empty reference
name — contributes nothing. -/
theorem triggers_summary (ts : List DeploymentTriggerPolicy) :
    printTriggers [] = "Triggers:\t<none>\n" ∧
    (ts ≠ [] →
      printTriggers ts =
        "Triggers:\t" ++ String.intercalate ", " (ts.filterMap triggerLabel)
          ++ "\n") := by
  constructor
  · rfl
  · intro h
    have hlen : (ts.length == 0) = false := by
      simpa [List.length_eq_zero] using h
    simp only [printTriggers, hlen, Bool.false_eq_true, if_false]
    rw [triggers_foldl_labels ts []]
    simp only [List.nil_append, formatString]
    rfl

/-- Image-change trigger fixture with an empty image-stream reference
name. -/
def trigEmptyRef : DeploymentTriggerPolicy :=
  { type := "ImageChange"
  , imageChangeParams :=
    { automatic := false, fromRef := { kind := "", name := "", nspace := "" } } }

/-- Config-change trigger fixture. -/
def trigConfig : DeploymentTriggerPolicy :=
  { type := "ConfigChange"
  , imageChangeParams :=
    { automatic := false, fromRef := { kind := "", name := "", nspace := "" } } }

/-- Image-change trigger fixture referencing `ruby:2.0` automatically. -/
def trigImage : DeploymentTriggerPolicy :=
  { type := "ImageChange"
  , imageChangeParams :=
    { automatic := true
    , fromRef := { kind := "ImageStreamTag", name := "ruby:2.0", nspace := "" } } }

/-- C7 (counterexample): a non-empty trigger list holding one on-image-change
trigger with an empty image-stream reference name renders an empty label
list — not the Image label the claim promises for every on-image-change
trigger. -/
theorem triggers_summary_counterexample :
    printTriggers [trigEmptyRef] = "Triggers:\t\n" ∧
    printTriggers [trigEmptyRef] ≠
      "Triggers:\t" ++ imageTriggerLabel trigEmptyRef ++ "\n" := by
  constructor
  · decide
  · decide

/-- C7 (witness): the amended summary theorem applied at a two-trigger list,
whose labels evaluate to "Config" and the Image label. -/
theorem triggers_summary_witness :
    printTriggers [trigConfig, trigImage] =
      "Triggers:\t" ++
        String.intercalate ", " ([trigConfig, trigImage].filterMap triggerLabel)
        ++ "\n" ∧
    printTriggers [trigConfig, trigImage] =
      "Triggers:\tConfig, Image(ruby@2.0, auto=true)\n" :=
  ⟨(triggers_summary [trigConfig, trigImage]).2 (by decide), by decide⟩

/-!
Idempotence of rendering (claim C8) and trailing-whitespace trimming
(claim C9).
-/

/-- Config fixture whose custom strategy command holds a token with an
embedded newline. -/
def cfgC8 : DeploymentConfig :=
  { meta := { name := "cfg", nspace := "ns" }
  , spec :=
    { selector := [], replicas := 1, test := false, triggers := []
    , strategy :=
      { type := "Custom"
      , customParams :=
        some { image := "img", environment := [], command := ["a\nb"] }
      , recreateParams := none, rollingParams := none }
    , template := { tag := "" } }
  , status := { latestVersion := 1, details := none } }

/-- C8: rendering is not idempotent.  `multilineStringArray` writes the
reflowed command tokens back through the argument slice
(`args[i] = s` on a spread slice shares the config's backing array), so the
first render rewrites the config's command token in place; a second render
of the same config object re-indents the already-reflowed token and produces
different bytes. -/
theorem describe_not_idempotent :
    (describeBody extT kcT true cfgC8 "ns" stT).fst ≠
      (describeBody extT kcT true
        (describeBody extT kcT true cfgC8 "ns" stT).snd "ns" stT).fst := by
  decide

/-- C9: the trailing-whitespace trim of `multilineStringArray` is
ineffective — the source calls `strings.TrimRight` on the last token and
discards the result — so a last token ending in a space keeps it: the joined
output of tokens "echo" and "hi " is "echo hi ", not the trimmed
"echo hi". -/
theorem multiline_trailing_whitespace_kept :
    (multilineStringArray " " "\t  " ["echo", "hi "]).fst = "echo hi " ∧
    (multilineStringArray " " "\t  " ["echo", "hi "]).fst ≠ "echo hi" := by
  constructor
  · decide
  · decide

/-!
User registry `REST.Get` semantics (claim C10).
-/

/-- C10: for name `~`, an unauthenticated or empty-named caller gets a
Forbidden error with the store never consulted (the result is the same for
every store); an authenticated name failing validation yields the virtual
user (name plus context groups cleared of the virtual groups) with no
error; a not-found store lookup yields the same virtual user; any other
store error is returned; and for a name other than `~` failing validation,
an invalid-field error is returned with the store never consulted. -/
theorem rest_get_semantics (validate : String → Bool → Bool × String)
    (store store2 : UserStore) (ctx : UserContext) (nm : String) :
    (ctx.user = none →
      RESTGet validate store ctx "~" =
        .error (.forbidden "user" "~" "requests to ~ must be authenticated") ∧
      RESTGet validate store ctx "~" = RESTGet validate store2 ctx "~") ∧
    (∀ u, ctx.user = some u → u.name = "" →
      RESTGet validate store ctx "~" =
        .error (.forbidden "user" "~" "requests to ~ must be authenticated") ∧
      RESTGet validate store ctx "~" = RESTGet validate store2 ctx "~") ∧
    (∀ u, ctx.user = some u → u.name ≠ "" →
      (validate u.name false).fst = false →
      RESTGet validate store ctx "~" =
        .ok { name := u.name
            , groups := stringSetList (u.groups.filter
                (fun g => !(g == UnauthenticatedGroup)
                  && !(g == AuthenticatedGroup))) }) ∧
    (∀ u e, ctx.user = some u → u.name ≠ "" →
      (validate u.name false).fst = true →
      store.get u.name = .error e → e.isNotFound = true →
      RESTGet validate store ctx "~" =
        .ok { name := u.name
            , groups := stringSetList (u.groups.filter
                (fun g => !(g == UnauthenticatedGroup)
                  && !(g == AuthenticatedGroup))) }) ∧
    (∀ u e, ctx.user = some u → u.name ≠ "" →
      (validate u.name false).fst = true →
      store.get u.name = .error e → e.isNotFound = false →
      RESTGet validate store ctx "~" = .error (.store e)) ∧
    (nm ≠ "~" → (validate nm false).fst = false →
      RESTGet validate store ctx nm =
        .error (.fieldInvalid "metadata.name" nm (validate nm false).snd) ∧
      RESTGet validate store ctx nm = RESTGet validate store2 ctx nm) := by
  refine ⟨?_, ?_, ?_, ?_, ?_, ?_⟩
  · intro hu
    constructor <;> simp [RESTGet, hu]
  · intro u hu hname
    constructor <;> simp [RESTGet, hu, hname]
  · intro u hu hname hv
    have hb : (u.name == "") = false := by simpa using hname
    simp [RESTGet, hu, hb, hv]
  · intro u e hu hname hv hst hnf
    have hb : (u.name == "") = false := by simpa using hname
    simp [RESTGet, hu, hb, hv, hst, hnf]
  · intro u e hu hname hv hst hnf
    have hb : (u.name == "") = false := by simpa using hname
    simp [RESTGet, hu, hb, hv, hst, hnf]
  · intro hne hv
    have hb : (nm == "~") = false := by simpa using hne
    constructor <;> simp [RESTGet, hb, hv]

/-- Validator fixture: a name is valid unless it is the literal "b:ad". -/
def vfFix : String → Bool → Bool × String :=
  fun n _ => (!(n == "b:ad"), "may not contain colons")

/-- Store fixture holding exactly the user "joe". -/
def storeJoe : UserStore :=
  { get := fun n =>
      if n == "joe" then .ok { name := "joe", groups := ["admins"] }
      else .error (.notFound "user not found") }

/-- Store fixture that knows no users. -/
def storeEmpty : UserStore :=
  { get := fun _ => .error (.notFound "user not found") }

/-- Store fixture whose every lookup fails with a non-not-found error. -/
def storeDown : UserStore :=
  { get := fun _ => .error (.other "etcd down") }

/-- Unauthenticated context fixture. -/
def ctxAnon : UserContext := { user := none }

/-- Context fixture authenticated as the invalidly named user "b:ad". -/
def ctxBad : UserContext :=
  { user := some { name := "b:ad", groups := ["system:authenticated", "dev"] } }

/-- Context fixture authenticated as "joe" with virtual groups present. -/
def ctxJoe : UserContext :=
  { user := some
      { name := "joe"
      , groups := ["system:authenticated", "dev", "system:unauthenticated"] } }

/-- C10 (witness): the `REST.Get` theorem applied at concrete contexts and
stores — unauthenticated `~`, invalid authenticated name, not-found lookup,
failing store, and an invalid non-`~` name. -/
theorem rest_get_semantics_witness :
    RESTGet vfFix storeJoe ctxAnon "~" =
      .error (.forbidden "user" "~" "requests to ~ must be authenticated") ∧
    RESTGet vfFix storeJoe ctxBad "~" =
      .ok { name := "b:ad", groups := ["dev"] } ∧
    RESTGet vfFix storeEmpty ctxJoe "~" =
      .ok { name := "joe", groups := ["dev"] } ∧
    RESTGet vfFix storeDown ctxJoe "~" =
      .error (.store (.other "etcd down")) ∧
    RESTGet vfFix storeJoe ctxJoe "b:ad" =
      .error (.fieldInvalid "metadata.name" "b:ad" "may not contain colons") :=
  ⟨((rest_get_semantics vfFix storeJoe storeDown ctxAnon "x").1 rfl).1,
   (rest_get_semantics vfFix storeJoe storeDown ctxBad "x").2.2.1 _ rfl
     (by decide) (by decide),
   (rest_get_semantics vfFix storeEmpty storeDown ctxJoe "x").2.2.2.1 _
     (.notFound "user not found") rfl (by decide) (by decide) rfl rfl,
   (rest_get_semantics vfFix storeDown storeJoe ctxJoe "x").2.2.2.2.1 _
     (.other "etcd down") rfl (by decide) (by decide) rfl rfl,
   ((rest_get_semantics vfFix storeJoe storeDown ctxJoe "b:ad").2.2.2.2.2
     (by decide) (by decide)).1⟩

end Origin


